import Mathlib

/-!
Shallow embedding of the CineVibe movie-review Flask application
(`PWA/app.py` together with the schema in `PWA/init_db.py`).

Modelling conventions:
* The SQLite tables `users`, `films`, `reviews` become lists of structures;
  `AUTOINCREMENT` primary keys become explicit next-id counters in the state.
* The upload directory (`static/uploads`) is modelled as the list of stored
  file names.
* A request handler becomes a function from the session, the (already parsed)
  form fields and the application state to a response paired with the new
  state.  A `flash(msg, cat)` followed by `redirect(url)` becomes
  `Resp.redirect url msg cat`; a `render_template` becomes `Resp.render`.
* Python string operations are modelled over ASCII: `.strip()` is `pyStrip`,
  `.lower()` is `pyLower`, `str.isupper` / `str.isdigit` per character are
  `Char.isUpper` / `Char.isDigit`, and SQLite `COLLATE NOCASE` (ASCII case
  folding) is comparison of `pyLower` images.
* `int(...)` parsing follows Python: surrounding whitespace, an optional
  sign, and digit groups separated by single underscores.
* External primitives that the handlers merely call through —
  `generate_password_hash` and `secure_filename` — are taken as function
  parameters, and `time.time()` / `date('now')` as value parameters.
-/

namespace CineVibe

/-- A row of the `users` table (`init_db.py`): id, unique username,
password hash. -/
structure UserRow where
  id : Nat
  username : String
  password : String
deriving Repr, DecidableEq

/-- A row of the `films` table (`init_db.py`): id and title. -/
structure Film where
  id : Nat
  title : String
deriving Repr, DecidableEq

/-- A row of the `reviews` table (`init_db.py`): id, title, rating
(CHECK 1..5), content, date, owning user id, film id, optional photo
file name. -/
structure Review where
  id : Nat
  title : String
  rating : Int
  content : String
  date : String
  user_id : Nat
  film_id : Nat
  photo : Option String
deriving Repr, DecidableEq

/-- The persistent state the handlers touch: the three tables with their
`AUTOINCREMENT` counters, plus the upload directory contents. -/
structure AppState where
  users : List UserRow
  films : List Film
  reviews : List Review
  nextUserId : Nat
  nextFilmId : Nat
  nextReviewId : Nat
  uploads : List String
deriving Repr, DecidableEq

/-- The `session` cookie contents set by `login`: `user_id` and
`username`. -/
structure SessionData where
  user_id : Nat
  username : String
deriving Repr, DecidableEq

/-- The observable result of a request: a redirect carrying a flashed
message and category, or a rendered template. -/
inductive Resp where
  | redirect (target : String) (msg : String) (cat : String)
  | render (template : String)
deriving Repr, DecidableEq

/-- HTTP method of the request, where a route accepts both. -/
inductive Method where
  | get
  | post
deriving Repr, DecidableEq

deriving instance DecidableEq for Except

/-! ## Python string primitives (ASCII model) -/

/-- Python `str.lower()` (ASCII model, matching SQLite NOCASE folding). -/
def pyLower (s : String) : String :=
  String.mk (s.toList.map Char.toLower)

/-- Python `str.strip()` with no argument: remove whitespace from both
ends (ASCII model). -/
def pyStrip (s : String) : String :=
  String.mk
    (((s.toList.dropWhile Char.isWhitespace).reverse.dropWhile
        Char.isWhitespace).reverse)

/-- Tail of a Python integer literal after its first digit: digits with
single underscores allowed between digits. -/
def digitsTail : List Char → Bool
  | [] => true
  | '_' :: rest =>
      match rest with
      | [] => false
      | c :: r => c.isDigit && digitsTail r
  | c :: rest => c.isDigit && digitsTail rest

/-- Numeric value of a digit string (underscores already removed). -/
def digitsVal (cs : List Char) : Nat :=
  cs.foldl (fun acc c => 10 * acc + (c.toNat - 48)) 0

/-- Parse an unsigned run of digits the way Python `int` accepts them:
nonempty, starting and ending with a digit, single underscores allowed
between digits. -/
def pyDigits (cs : List Char) : Option Nat :=
  match cs with
  | [] => none
  | c :: rest =>
      if c.isDigit && digitsTail rest then
        some (digitsVal (cs.filter (fun x => x != '_')))
      else none

/-- Python `int(s)` on a string: strip whitespace, optional sign, digit
groups; `none` models the `ValueError`. -/
def parsePyInt (s : String) : Option Int :=
  match (pyStrip s).toList with
  | '+' :: rest => (pyDigits rest).map (fun n => (n : Int))
  | '-' :: rest => (pyDigits rest).map (fun n => -(n : Int))
  | cs => (pyDigits cs).map (fun n => (n : Int))

/-- SQLite `COLLATE NOCASE` equality (ASCII case folding). -/
def nocaseEq (a b : String) : Bool :=
  pyLower a == pyLower b

/-! ## `allowed_file` (app.py lines 34-48) -/

/-- `ALLOWED_EXTENSIONS = {"png", "jpg", "jpeg", "gif"}` (app.py line 34). -/
def ALLOWED_EXTENSIONS : List String := ["png", "jpg", "jpeg", "gif"]

/-- The characters after the last dot: `filename.rsplit(".", 1)[1]` for a
`filename` that contains a dot. -/
def afterLastDotL (cs : List Char) : List Char :=
  (cs.reverse.takeWhile (fun c => c != '.')).reverse

/-- `allowed_file` (app.py line 48):
`"." in filename and filename.rsplit(".", 1)[1].lower() in ALLOWED_EXTENSIONS`. -/
def allowed_file (filename : String) : Bool :=
  filename.toList.contains '.' &&
    ALLOWED_EXTENSIONS.contains (pyLower (String.mk (afterLastDotL filename.toList)))

/-- The specification reading of `allowed_file`: the file name splits as
`a ++ "." ++ b` where `b` is dot-free (so `b` is the substring after the
last dot) and `b`, lowercased, is an allowed extension. -/
def SpecAllowed (filename : String) : Prop :=
  ∃ a b : List Char, filename.toList = a ++ '.' :: b ∧ '.' ∉ b ∧
    pyLower (String.mk b) ∈ ALLOWED_EXTENSIONS

/-! ### Helper lemmas about the last-dot split -/

theorem contains_iff_mem {α : Type} [BEq α] [LawfulBEq α] {l : List α} {a : α} :
    l.contains a = true ↔ a ∈ l := List.elem_iff

theorem takeWhile_ne_dot_append (b r : List Char) (hb : '.' ∉ b) :
    (b ++ '.' :: r).takeWhile (fun c => c != '.') = b := by
  induction b with
  | nil =>
      rw [List.nil_append, List.takeWhile_cons]
      simp
  | cons c cs ih =>
      have hc : (c != '.') = true := by
        refine bne_iff_ne.mpr ?_
        intro h
        subst h
        exact hb (List.mem_cons_self _ _)
      have hcs : '.' ∉ cs := fun hm => hb (List.mem_cons_of_mem _ hm)
      rw [List.cons_append, List.takeWhile_cons, if_pos hc, ih hcs]

theorem afterLastDotL_eq (a b : List Char) (hb : '.' ∉ b) :
    afterLastDotL (a ++ '.' :: b) = b := by
  unfold afterLastDotL
  have h1 : (a ++ '.' :: b).reverse = b.reverse ++ '.' :: a.reverse := by
    simp
  rw [h1, takeWhile_ne_dot_append _ _ (by simpa using hb), List.reverse_reverse]

theorem exists_last_dot_split (cs : List Char) (h : cs.contains '.' = true) :
    ∃ a b : List Char, cs = a ++ '.' :: b ∧ '.' ∉ b := by
  induction cs with
  | nil => exact absurd h (by decide)
  | cons c rest ih =>
      by_cases hr : rest.contains '.' = true
      · obtain ⟨a, b, hab, hnb⟩ := ih hr
        exact ⟨c :: a, b, by rw [hab]; rfl, hnb⟩
      · have hc : c = '.' := by
          rw [List.contains_cons] at h
          rcases (Bool.or_eq_true _ _).mp h with h1 | h2
          · exact (beq_iff_eq.mp h1).symm
          · exact absurd h2 hr
        refine ⟨[], rest, by rw [hc]; rfl, ?_⟩
        intro hmem
        exact hr (contains_iff_mem.mpr hmem)

theorem allowed_file_iff (f : String) :
    allowed_file f = true ↔ SpecAllowed f := by
  constructor
  · intro h
    unfold allowed_file at h
    obtain ⟨hdot, hext⟩ := Bool.and_eq_true_iff.mp h
    obtain ⟨a, b, hab, hnb⟩ := exists_last_dot_split f.toList hdot
    refine ⟨a, b, hab, hnb, ?_⟩
    rw [hab, afterLastDotL_eq a b hnb] at hext
    exact contains_iff_mem.mp hext
  · rintro ⟨a, b, hab, hnb, hmem⟩
    unfold allowed_file
    rw [hab]
    apply Bool.and_eq_true_iff.mpr
    refine ⟨?_, ?_⟩
    · exact contains_iff_mem.mpr (by simp)
    · rw [afterLastDotL_eq a b hnb]
      exact contains_iff_mem.mpr hmem

/-! ## `register` (app.py lines 154-229) -/

/-- `register` (app.py lines 154-229).  `hash` stands for werkzeug
`generate_password_hash`.  The form supplies `username` (stripped in the
handler) and the raw password.  On success the new row is inserted with the
hashed password and the user is redirected to the login page. -/
def register (hash : String → String) (method : Method)
    (username_raw password : String) (st : AppState) : Resp × AppState :=
  match method with
  | .get => (Resp.render "register.html", st)
  | .post =>
    let username := pyStrip username_raw
    if password.length < 6 then
      (Resp.redirect "/register" "Password must be at least 6 characters long." "error", st)
    else if !(password.toList.any Char.isUpper) then
      (Resp.redirect "/register" "Password must include at least one uppercase letter." "error", st)
    else if !(password.toList.any Char.isDigit) then
      (Resp.redirect "/register" "Password must include at least one number." "error", st)
    else
      match st.users.find? (fun u => u.username == username) with
      | some _ =>
          (Resp.redirect "/register" "Username already taken. Please choose a different username." "error", st)
      | none =>
          (Resp.redirect "/login" "Account created successfully! Please log in." "success",
           { st with
               users := st.users ++ [⟨st.nextUserId, username, hash password⟩],
               nextUserId := st.nextUserId + 1 })

/-! ## `add_review` (app.py lines 321-472) -/

/-- The form fields of the add-review (and intended edit-review) POST:
raw strings as submitted, plus the original file name of the uploaded
photo (`none`, or `some ""`, when no file was chosen). -/
structure ReviewForm where
  title : String
  rating : String
  content : String
  film_id : String
  new_film : String
  photo : Option String
deriving Repr, DecidableEq

/-- Film handling block of `add_review` (app.py lines 376-414): when the
form says `"new"`, look the typed title up `COLLATE NOCASE` and reuse the
match, otherwise insert the film and re-select its id; when an id was
submitted, it must parse as an integer and reference an existing row.
`new_film_title` is the already-stripped free-text title.  Returns the
resolved film id with the (possibly extended) state, or the error
response. -/
def resolve_film (film_id new_film_title : String) (st : AppState) :
    Except Resp (Nat × AppState) :=
  if film_id == "new" then
    if new_film_title == "" then
      .error (Resp.redirect "/add-review" "Please enter a film title to add." "error")
    else
      match st.films.find? (fun f => nocaseEq f.title new_film_title) with
      | some f => .ok (f.id, st)
      | none =>
          let st' : AppState :=
            { st with
                films := st.films ++ [⟨st.nextFilmId, new_film_title⟩],
                nextFilmId := st.nextFilmId + 1 }
          -- the code re-selects the id by title NOCASE after the insert;
          -- the freshly inserted row always matches, so the fallback 0 of
          -- this total model is unreachable
          match st'.films.find? (fun f => nocaseEq f.title new_film_title) with
          | some f => .ok (f.id, st')
          | none => .ok (0, st')
  else
    match parsePyInt film_id with
    | none => .error (Resp.redirect "/add-review" "Invalid film selection." "error")
    | some n =>
        match st.films.find? (fun f => ((f.id : Int) == n)) with
        | none => .error (Resp.redirect "/add-review" "Selected film not found." "error")
        | some f => .ok (f.id, st)

/-- Rating validation block of `add_review` (app.py lines 419-425):
`int(rating)` must succeed and land in `[1, 5]`. -/
def validate_rating (rating : String) : Option Int :=
  match parsePyInt rating with
  | none => none
  | some r => if r < 1 || r > 5 then none else some r

/-- File upload block of `add_review` (app.py lines 430-443): when a file
with a nonempty name is present it must pass `allowed_file`; the stored
name is `f"{int(time.time())}_{secure_filename(...)}"`.  `secName` stands
for werkzeug `secure_filename`, `now` for `int(time.time())`. -/
def handle_upload (secName : String → String) (now : Nat)
    (photo : Option String) (st : AppState) :
    Except Resp (Option String × AppState) :=
  match photo with
  | some fn =>
      if fn != "" then
        if allowed_file fn then
          let stored := toString now ++ "_" ++ secName fn
          .ok (some stored, { st with uploads := st.uploads ++ [stored] })
        else
          .error (Resp.redirect "/add-review"
            "Invalid file type. Please upload an image (png, jpg, jpeg, gif)." "error")
      else .ok (none, st)
  | none => .ok (none, st)

/-- `add_review` (app.py lines 321-472): login gate, required-field check,
film handling, rating validation, upload handling, then the INSERT with
`date('now')` (the `today` parameter) and the session's user id. -/
def add_review (secName : String → String) (now : Nat) (today : String)
    (sess : Option SessionData) (method : Method) (form : ReviewForm)
    (st : AppState) : Resp × AppState :=
  match sess with
  | none => (Resp.redirect "/login" "Please log in to add a review." "warning", st)
  | some s =>
    match method with
    | .get => (Resp.render "add_review.html", st)
    | .post =>
      let title := pyStrip form.title
      let rating := form.rating
      let content := pyStrip form.content
      let new_film_title := pyStrip form.new_film
      if title == "" || rating == "" || content == "" then
        (Resp.redirect "/add-review" "Please fill in all required fields." "error", st)
      else
        match resolve_film form.film_id new_film_title st with
        | .error r => (r, st)
        | .ok (fid, st1) =>
          match validate_rating rating with
          | none =>
              (Resp.redirect "/add-review" "Rating must be an integer between 1 and 5." "error", st1)
          | some rv =>
            match handle_upload secName now form.photo st1 with
            | .error r2 => (r2, st1)
            | .ok (filename, st2) =>
                (Resp.redirect "/" "Review added successfully!" "success",
                 { st2 with
                     reviews := st2.reviews ++
                       [⟨st2.nextReviewId, title, rv, content, today, s.user_id, fid, filename⟩],
                     nextReviewId := st2.nextReviewId + 1 })

/-! ## `view_review` (app.py lines 480-517) -/

/-- `view_review` (app.py lines 480-517): the SELECT joins `reviews` with
`films` and `users` on the review id; a missing review (or a join partner
missing) flashes "Review not found." and redirects home. -/
def view_review (review_id : Nat) (st : AppState) : Resp :=
  match st.reviews.find? (fun r => r.id == review_id) with
  | none => Resp.redirect "/" "Review not found." "error"
  | some r =>
      match st.films.find? (fun f => f.id == r.film_id),
            st.users.find? (fun u => u.id == r.user_id) with
      | some _, some _ => Resp.render "review.html"
      | _, _ => Resp.redirect "/" "Review not found." "error"

/-! ## `edit_review` (app.py lines 526-606) -/

/-- `edit_review` (app.py lines 526-606): login gate, fetch, not-found
check, ownership check.  In the POST branch the validation block is an
unimplemented comment (`# ... validation code ...`), so the UPDATE
references the never-assigned names `title`, `rating`, `content`,
`film_id`, `filename`; evaluating its parameter tuple raises
`NameError: name 'title' is not defined`, which the surrounding
`except Exception` turns into a flashed error and a redirect back to the
edit page, leaving the state untouched. -/
def edit_review (sess : Option SessionData) (review_id : Nat)
    (method : Method) (st : AppState) : Resp × AppState :=
  match sess with
  | none => (Resp.redirect "/login" "Please log in to edit reviews." "warning", st)
  | some s =>
    match st.reviews.find? (fun r => r.id == review_id) with
    | none => (Resp.redirect "/" "Review not found." "error", st)
    | some review =>
      if review.user_id != s.user_id then
        (Resp.redirect "/" "You can only edit your own reviews." "error", st)
      else
        match method with
        | .post =>
            (Resp.redirect ("/edit-review/" ++ toString review_id)
              "Error updating review: name \x27title\x27 is not defined" "error", st)
        | .get => (Resp.render "edit_review.html", st)

/-! ## `delete_review` (app.py lines 615-668) -/

/-- `delete_review` (app.py lines 615-668): login gate, fetch, not-found
check, ownership check, then `DELETE FROM reviews WHERE id = ?`.  No file
in the upload directory is touched. -/
def delete_review (sess : Option SessionData) (review_id : Nat)
    (st : AppState) : Resp × AppState :=
  match sess with
  | none => (Resp.redirect "/login" "Please log in to delete reviews." "warning", st)
  | some s =>
    match st.reviews.find? (fun r => r.id == review_id) with
    | none => (Resp.redirect "/" "Review not found." "error", st)
    | some review =>
      if review.user_id != s.user_id then
        (Resp.redirect "/" "You can only delete your own reviews." "error", st)
      else
        (Resp.redirect "/" "Review deleted successfully!" "success",
         { st with reviews := st.reviews.filter (fun r => r.id != review_id) })

/-! ## Concrete fixtures (a small database in the shape seeded by
`init_db.py`) used to instantiate the theorems -/

/-- A sample database: two users, two films, one review by user 1 without
a photo. -/
def dbSample : AppState :=
  { users := [⟨1, "alice", "hash1"⟩, ⟨2, "bob", "hash2"⟩],
    films := [⟨1, "The Matrix"⟩, ⟨2, "Inception"⟩],
    reviews := [⟨1, "Great", 5, "Loved it", "2026-01-01", 1, 1, none⟩],
    nextUserId := 3,
    nextFilmId := 3,
    nextReviewId := 2,
    uploads := [] }

/-- A sample database whose single review (owned by user 1) carries the
stored photo `"1700000000_old.png"`, present in the upload directory. -/
def dbWithPhoto : AppState :=
  { users := [⟨1, "alice", "hash1"⟩, ⟨2, "bob", "hash2"⟩],
    films := [⟨1, "The Matrix"⟩, ⟨2, "Inception"⟩],
    reviews := [⟨1, "Great", 5, "Loved it", "2026-01-01", 1, 1,
                 some "1700000000_old.png"⟩],
    nextUserId := 3,
    nextFilmId := 3,
    nextReviewId := 2,
    uploads := ["1700000000_old.png"] }

/-- A stand-in for `generate_password_hash` used in witnesses: prefixes
the method tag the way werkzeug prefixes its output. -/
def hashFix : String → String := fun s => "pbkdf2:sha256:" ++ s

end CineVibe

open CineVibe

/-- C10: `allowed_file(filename)` returns `True` iff `filename` contains a
dot and the substring after the last dot, lowercased, is one of
png, jpg, jpeg, gif; a dotless name is rejected and the comparison is
case-insensitive (`"poster.PNG"` is accepted). -/
theorem C10_allowed_file_characterisation :
    (∀ f : String, CineVibe.allowed_file f = true ↔ CineVibe.SpecAllowed f) ∧
    CineVibe.allowed_file "poster.PNG" = true ∧
    CineVibe.allowed_file "poster" = false := by
  refine ⟨CineVibe.allowed_file_iff, by decide, by decide⟩

/-- C1: an authenticated user whose session user id differs from a
review's owning user id gets the forbidden flash-and-redirect on both the
edit and the delete route, and the state (in particular the reviews
table) is completely unchanged. -/
theorem C1_non_owner_edit_delete_forbidden
    (st : AppState) (s : SessionData) (rid : Nat) (r : Review) (m : Method)
    (hfind : st.reviews.find? (fun x => x.id == rid) = some r)
    (hown : r.user_id ≠ s.user_id) :
    edit_review (some s) rid m st =
      (Resp.redirect "/" "You can only edit your own reviews." "error", st) ∧
    delete_review (some s) rid st =
      (Resp.redirect "/" "You can only delete your own reviews." "error", st) := by
  have hb : (r.user_id != s.user_id) = true := bne_iff_ne.mpr hown
  constructor
  · simp [edit_review, hfind, hb]
  · simp [delete_review, hfind, hb]

/-- Witness for C1: in `dbSample`, user 2 ("bob") attempts to edit and
delete review 1, which user 1 owns. -/
theorem C1_non_owner_edit_delete_forbidden_witness :
    edit_review (some ⟨2, "bob"⟩) 1 Method.post dbSample =
      (Resp.redirect "/" "You can only edit your own reviews." "error", dbSample) ∧
    delete_review (some ⟨2, "bob"⟩) 1 dbSample =
      (Resp.redirect "/" "You can only delete your own reviews." "error", dbSample) :=
  C1_non_owner_edit_delete_forbidden dbSample ⟨2, "bob"⟩ 1
    ⟨1, "Great", 5, "Loved it", "2026-01-01", 1, 1, none⟩ Method.post
    (by decide) (by decide)

/-- C8: after the owner successfully deletes review `rid`, fetching it by
id yields the not-found flash and redirect to the listing page. -/
theorem C8_delete_then_fetch_not_found
    (st : AppState) (s : SessionData) (rid : Nat) (r : Review)
    (hfind : st.reviews.find? (fun x => x.id == rid) = some r)
    (hown : r.user_id = s.user_id) :
    (delete_review (some s) rid st).1 =
      Resp.redirect "/" "Review deleted successfully!" "success" ∧
    view_review rid (delete_review (some s) rid st).2 =
      Resp.redirect "/" "Review not found." "error" := by
  have hb : (r.user_id != s.user_id) = false := by simp [hown]
  have hdel : delete_review (some s) rid st =
      (Resp.redirect "/" "Review deleted successfully!" "success",
       { st with reviews := st.reviews.filter (fun x => x.id != rid) }) := by
    simp [delete_review, hfind, hb]
  rw [hdel]
  refine ⟨rfl, ?_⟩
  have hnone : (st.reviews.filter (fun x => x.id != rid)).find?
      (fun x => x.id == rid) = none := by
    rw [List.find?_eq_none]
    intro x hx
    have h2 := (List.mem_filter.mp hx).2
    simp only [bne_iff_ne, ne_eq] at h2
    simp [h2]
  simp [view_review, hnone]

/-- Witness for C8: user 1 deletes their review 1 in `dbSample`; fetching
review 1 afterwards is not-found. -/
theorem C8_delete_then_fetch_not_found_witness :
    (delete_review (some ⟨1, "alice"⟩) 1 dbSample).1 =
      Resp.redirect "/" "Review deleted successfully!" "success" ∧
    view_review 1 (delete_review (some ⟨1, "alice"⟩) 1 dbSample).2 =
      Resp.redirect "/" "Review not found." "error" :=
  C8_delete_then_fetch_not_found dbSample ⟨1, "alice"⟩ 1
    ⟨1, "Great", 5, "Loved it", "2026-01-01", 1, 1, none⟩ (by decide) (by decide)

/-- C5 (code bug): the owner's POST to the edit route never runs any
validation and never persists anything.  The handler's validation block is
an unimplemented comment, so the UPDATE references undefined names and the
request ends in the caught-`NameError` flash with the state unchanged —
a valid edit submission cannot succeed. -/
theorem C5_edit_stub_never_updates :
    edit_review (some ⟨1, "alice"⟩) 1 Method.post dbSample =
      (Resp.redirect "/edit-review/1"
        "Error updating review: name \x27title\x27 is not defined" "error",
       dbSample) := by
  decide

/-- C6 (code bug): no operation ever removes a stored photo file.  An edit
by the owner of a review with stored photo changes nothing (no replacement
and no deletion of the superseded file is even possible), and deleting the
review removes the row while its file stays in the upload directory. -/
theorem C6_no_photo_file_cleanup :
    (edit_review (some ⟨1, "alice"⟩) 1 Method.post dbWithPhoto).2 = dbWithPhoto ∧
    dbWithPhoto.uploads = ["1700000000_old.png"] ∧
    dbWithPhoto.reviews.find? (fun r => r.id == 1) =
      some ⟨1, "Great", 5, "Loved it", "2026-01-01", 1, 1, some "1700000000_old.png"⟩ ∧
    (delete_review (some ⟨1, "alice"⟩) 1 dbWithPhoto).2.reviews = [] ∧
    (delete_review (some ⟨1, "alice"⟩) 1 dbWithPhoto).2.uploads = ["1700000000_old.png"] := by
  refine ⟨by decide, by decide, by decide, by decide, by decide⟩

/-! ### Helper lemmas about `resolve_film` -/

theorem resolve_film_new_found (st : AppState) (t : String) (f : Film)
    (ht : (t == "") = false)
    (hf : st.films.find? (fun x => nocaseEq x.title t) = some f) :
    resolve_film "new" t st = .ok (f.id, st) := by
  simp [resolve_film, ht, hf]

theorem resolve_film_new_miss (st : AppState) (t : String)
    (ht : (t == "") = false)
    (hm : st.films.find? (fun x => nocaseEq x.title t) = none) :
    resolve_film "new" t st =
      .ok (st.nextFilmId,
           { st with films := st.films ++ [⟨st.nextFilmId, t⟩],
                     nextFilmId := st.nextFilmId + 1 }) := by
  have hfind2 : (st.films ++ [⟨st.nextFilmId, t⟩] : List Film).find?
      (fun x => nocaseEq x.title t) = some ⟨st.nextFilmId, t⟩ := by
    rw [List.find?_append, hm]
    simp [List.find?_cons, nocaseEq]
  simp [resolve_film, ht, hm, hfind2]

/-- Any successful film resolution leaves every table except `films`
untouched, and extends `films` at most by the freshly typed title. -/
theorem resolve_film_frame (a b : String) (st st' : AppState) (fid : Nat)
    (h : resolve_film a b st = .ok (fid, st')) :
    st'.users = st.users ∧ st'.reviews = st.reviews ∧
    st'.uploads = st.uploads ∧ st'.nextReviewId = st.nextReviewId ∧
    (st'.films = st.films ∨ st'.films = st.films ++ [⟨st.nextFilmId, b⟩]) := by
  unfold resolve_film at h
  split at h
  · split at h
    · exact absurd h (by simp)
    · split at h
      · rw [Except.ok.injEq, Prod.mk.injEq] at h
        rw [← h.2]
        exact ⟨rfl, rfl, rfl, rfl, Or.inl rfl⟩
      · dsimp only at h
        split at h
        all_goals
          rw [Except.ok.injEq, Prod.mk.injEq] at h
          rw [← h.2]
          exact ⟨rfl, rfl, rfl, rfl, Or.inr rfl⟩
  · split at h
    · exact absurd h (by simp)
    · split at h
      · exact absurd h (by simp)
      · rw [Except.ok.injEq, Prod.mk.injEq] at h
        rw [← h.2]
        exact ⟨rfl, rfl, rfl, rfl, Or.inl rfl⟩

/-- C3: resolving a `"new"`-film submission whose (stripped, nonempty)
title already matches a film `COLLATE NOCASE` returns that film's id and
changes nothing; only when no case-insensitive match exists is a row
inserted, and its fresh id returned. -/
theorem C3_film_resolution (st : AppState) (t : String) (ht : t ≠ "") :
    (∀ f : Film, st.films.find? (fun x => nocaseEq x.title t) = some f →
        resolve_film "new" t st = .ok (f.id, st)) ∧
    (st.films.find? (fun x => nocaseEq x.title t) = none →
        resolve_film "new" t st =
          .ok (st.nextFilmId,
               { st with films := st.films ++ [⟨st.nextFilmId, t⟩],
                         nextFilmId := st.nextFilmId + 1 })) := by
  have ht' : (t == "") = false := by
    cases hEq : (t == "")
    · rfl
    · exact absurd (beq_iff_eq.mp hEq) ht
  exact ⟨fun f hf => resolve_film_new_found st t f ht' hf,
         fun hm => resolve_film_new_miss st t ht' hm⟩

/-- Witness for C3: `"the matrix"` matches the seeded `"The Matrix"`
case-insensitively and resolves to id 1 without a new row; `"Dune"` has no
match and is inserted with the fresh id 3. -/
theorem C3_film_resolution_witness :
    resolve_film "new" "the matrix" dbSample = .ok (1, dbSample) ∧
    resolve_film "new" "Dune" dbSample =
      .ok (3, { dbSample with films := dbSample.films ++ [⟨3, "Dune"⟩],
                              nextFilmId := 4 }) := by
  constructor
  · exact (C3_film_resolution dbSample "the matrix" (by decide)).1
      ⟨1, "The Matrix"⟩ (by decide)
  · exact ((C3_film_resolution dbSample "Dune" (by decide)).2 (by decide)).trans
      (by decide)

/-- Counterexample to C2 as stated: the submission below has a rating
field (`"abc"`) that does not parse as an integer, yet the request fails
with the film-selection error (its film field `"xyz"` is rejected first),
not with the rating-validation error. -/
theorem C2_counterexample :
    parsePyInt "abc" = none ∧
    (add_review id 0 "2026-02-03" (some ⟨1, "alice"⟩) Method.post
        ⟨"Nice", "abc", "Body", "xyz", "", none⟩ dbSample).1 =
      Resp.redirect "/add-review" "Invalid film selection." "error" ∧
    Resp.redirect "/add-review" "Invalid film selection." "error" ≠
      Resp.redirect "/add-review" "Rating must be an integer between 1 and 5." "error" := by
  refine ⟨by decide, by decide, by decide⟩

/-- C2 (amended): a create-review submission that passes the
required-field check and whose film selection resolves, but whose rating
field does not parse as an integer or parses outside `[1, 5]`, fails with
the rating-validation error and inserts no review row. -/
theorem C2_rating_validation
    (secName : String → String) (now : Nat) (today : String)
    (s : SessionData) (form : ReviewForm) (st st' : AppState) (fid : Nat)
    (ht : pyStrip form.title ≠ "")
    (hr : form.rating ≠ "")
    (hc : pyStrip form.content ≠ "")
    (hfilm : resolve_film form.film_id (pyStrip form.new_film) st = .ok (fid, st'))
    (hbad : parsePyInt form.rating = none ∨
            ∃ r : Int, parsePyInt form.rating = some r ∧ (r < 1 ∨ r > 5)) :
    add_review secName now today (some s) Method.post form st =
      (Resp.redirect "/add-review" "Rating must be an integer between 1 and 5." "error", st') ∧
    st'.reviews = st.reviews := by
  have hv : validate_rating form.rating = none := by
    unfold validate_rating
    rcases hbad with h | ⟨r, hr', hout⟩
    · rw [h]
    · rw [hr']
      have : (r < 1 || r > 5) = true := by
        rcases hout with h1 | h2
        · simp [h1]
        · simp [h2]
      simp [this]
  have ht' : (pyStrip form.title == "") = false := by
    cases hEq : (pyStrip form.title == "")
    · rfl
    · exact absurd (beq_iff_eq.mp hEq) ht
  have hr' : (form.rating == "") = false := by
    cases hEq : (form.rating == "")
    · rfl
    · exact absurd (beq_iff_eq.mp hEq) hr
  have hc' : (pyStrip form.content == "") = false := by
    cases hEq : (pyStrip form.content == "")
    · rfl
    · exact absurd (beq_iff_eq.mp hEq) hc
  refine ⟨?_, (resolve_film_frame _ _ _ _ _ hfilm).2.1⟩
  simp [add_review, ht', hr', hc', hfilm, hv]

/-- Witness for C2 (amended): rating `"9"` parses but is out of range; the
film field `"1"` resolves to the seeded film, the request fails with the
rating error and `dbSample` keeps its single review. -/
theorem C2_rating_validation_witness :
    add_review id 0 "2026-02-03" (some ⟨1, "alice"⟩) Method.post
        ⟨"Nice", "9", "Body", "1", "", none⟩ dbSample =
      (Resp.redirect "/add-review" "Rating must be an integer between 1 and 5." "error",
       dbSample) ∧
    dbSample.reviews = dbSample.reviews := by
  have h := C2_rating_validation id 0 "2026-02-03" ⟨1, "alice"⟩
    ⟨"Nice", "9", "Body", "1", "", none⟩ dbSample dbSample 1
    (by decide) (by decide) (by decide) (by decide)
    (Or.inr ⟨9, by decide, Or.inr (by decide)⟩)
  exact h

/-- C7: a create-review submission that fails after the film-resolution
step — at rating validation, or at file-type validation — commits no
review row, yet the film row created during resolution of a fresh title
stays: the resulting state has the reviews table unchanged and the films
table extended by the new row. -/
theorem C7_film_commit_survives_late_failure
    (secName : String → String) (now : Nat) (today : String)
    (s : SessionData) (form : ReviewForm) (st : AppState)
    (ht : pyStrip form.title ≠ "") (hr : form.rating ≠ "")
    (hc : pyStrip form.content ≠ "")
    (hnew : form.film_id = "new") (hnf : pyStrip form.new_film ≠ "")
    (hmiss : st.films.find? (fun f => nocaseEq f.title (pyStrip form.new_film)) = none) :
    (validate_rating form.rating = none →
        add_review secName now today (some s) Method.post form st =
          (Resp.redirect "/add-review" "Rating must be an integer between 1 and 5." "error",
           { st with films := st.films ++ [⟨st.nextFilmId, pyStrip form.new_film⟩],
                     nextFilmId := st.nextFilmId + 1 })) ∧
    (∀ (rv : Int) (fn : String), validate_rating form.rating = some rv →
        form.photo = some fn → fn ≠ "" → allowed_file fn = false →
        add_review secName now today (some s) Method.post form st =
          (Resp.redirect "/add-review"
             "Invalid file type. Please upload an image (png, jpg, jpeg, gif)." "error",
           { st with films := st.films ++ [⟨st.nextFilmId, pyStrip form.new_film⟩],
                     nextFilmId := st.nextFilmId + 1 })) := by
  have ht' : (pyStrip form.title == "") = false := by
    cases hEq : (pyStrip form.title == "")
    · rfl
    · exact absurd (beq_iff_eq.mp hEq) ht
  have hr' : (form.rating == "") = false := by
    cases hEq : (form.rating == "")
    · rfl
    · exact absurd (beq_iff_eq.mp hEq) hr
  have hc' : (pyStrip form.content == "") = false := by
    cases hEq : (pyStrip form.content == "")
    · rfl
    · exact absurd (beq_iff_eq.mp hEq) hc
  have hnf' : (pyStrip form.new_film == "") = false := by
    cases hEq : (pyStrip form.new_film == "")
    · rfl
    · exact absurd (beq_iff_eq.mp hEq) hnf
  have hfilm := resolve_film_new_miss st (pyStrip form.new_film) hnf' hmiss
  constructor
  · intro hv
    simp [add_review, ht', hr', hc', hnew, hfilm, hv]
  · intro rv fn hrv hfn hfne hbad
    have hfne' : (fn != "") = true := bne_iff_ne.mpr hfne
    simp [add_review, ht', hr', hc', hnew, hfilm, hrv, handle_upload, hfn, hfne', hbad]

/-- Witness for C7: with the fresh film title `"Dune"`, a non-parsing
rating `"abc"` and, separately, a disallowed upload `"virus.exe"` with
valid rating `"4"` both end in an error, with the review table unchanged
and the film `"Dune"` committed. -/
theorem C7_film_commit_survives_late_failure_witness :
    add_review id 0 "2026-02-03" (some ⟨1, "alice"⟩) Method.post
        ⟨"Nice", "abc", "Body", "new", "Dune", none⟩ dbSample =
      (Resp.redirect "/add-review" "Rating must be an integer between 1 and 5." "error",
       { dbSample with films := dbSample.films ++ [⟨3, "Dune"⟩], nextFilmId := 4 }) ∧
    add_review id 0 "2026-02-03" (some ⟨1, "alice"⟩) Method.post
        ⟨"Nice", "4", "Body", "new", "Dune", some "virus.exe"⟩ dbSample =
      (Resp.redirect "/add-review"
         "Invalid file type. Please upload an image (png, jpg, jpeg, gif)." "error",
       { dbSample with films := dbSample.films ++ [⟨3, "Dune"⟩], nextFilmId := 4 }) := by
  constructor
  · have h := (C7_film_commit_survives_late_failure id 0 "2026-02-03" ⟨1, "alice"⟩
      ⟨"Nice", "abc", "Body", "new", "Dune", none⟩ dbSample
      (by decide) (by decide) (by decide) (by decide) (by decide) (by decide)).1
      (by decide)
    exact h.trans (by decide)
  · have h := (C7_film_commit_survives_late_failure id 0 "2026-02-03" ⟨1, "alice"⟩
      ⟨"Nice", "4", "Body", "new", "Dune", some "virus.exe"⟩ dbSample
      (by decide) (by decide) (by decide) (by decide) (by decide) (by decide)).2
      4 "virus.exe" (by decide) (by decide) (by decide) (by decide)
    exact h.trans (by decide)

/-! ### Frame helpers for C4 -/

/-- The edit handler never changes the state: every branch, including the
POST branch with its caught `NameError`, returns the state it was given. -/
theorem edit_review_state_id (sess : Option SessionData) (rid : Nat)
    (m : Method) (st : AppState) : (edit_review sess rid m st).2 = st := by
  unfold edit_review
  split
  · rfl
  · split
    · rfl
    · split
      · rfl
      · split <;> rfl

/-- Whenever the submitted photo has a nonempty name with a disallowed
extension, `add_review` stores no file and inserts no review row,
whatever else the form contains. -/
theorem add_review_no_store_on_bad_file
    (secName : String → String) (now : Nat) (today : String)
    (sess : Option SessionData) (m : Method) (form : ReviewForm) (st : AppState)
    (fn : String) (hfn : form.photo = some fn) (hfne : fn ≠ "")
    (hbad : allowed_file fn = false) :
    (add_review secName now today sess m form st).2.uploads = st.uploads ∧
    (add_review secName now today sess m form st).2.reviews = st.reviews := by
  have hfne' : (fn != "") = true := bne_iff_ne.mpr hfne
  have hup : ∀ st1 : AppState, handle_upload secName now form.photo st1 =
      .error (Resp.redirect "/add-review"
        "Invalid file type. Please upload an image (png, jpg, jpeg, gif)." "error") := by
    intro st1
    simp [handle_upload, hfn, hfne', hbad]
  unfold add_review
  cases sess with
  | none => exact ⟨rfl, rfl⟩
  | some s =>
      cases m with
      | get => exact ⟨rfl, rfl⟩
      | post =>
          dsimp only
          split
          · exact ⟨rfl, rfl⟩
          · cases hres : resolve_film form.film_id (pyStrip form.new_film) st with
            | error r => simp [hres]
            | ok p =>
                obtain ⟨fid, st1⟩ := p
                have hfr := resolve_film_frame _ _ _ _ _ hres
                cases hv : validate_rating form.rating with
                | none => simp [hres, hv, hfr.2.1, hfr.2.2.1]
                | some rv => simp [hres, hv, hup, hfr.2.1, hfr.2.2.1]

/-- Counterexample to C4 as stated: the submission below carries the
disallowed upload `"virus.exe"`, yet the request fails with the
required-fields error (its title is empty), not with the file-type
error. -/
theorem C4_counterexample :
    allowed_file "virus.exe" = false ∧
    (add_review id 0 "2026-02-03" (some ⟨1, "alice"⟩) Method.post
        ⟨"", "5", "Body", "1", "", some "virus.exe"⟩ dbSample).1 =
      Resp.redirect "/add-review" "Please fill in all required fields." "error" ∧
    Resp.redirect "/add-review" "Please fill in all required fields." "error" ≠
      Resp.redirect "/add-review"
        "Invalid file type. Please upload an image (png, jpg, jpeg, gif)." "error" := by
  refine ⟨by decide, by decide, by decide⟩

/-- C4 (amended): a submission with an uploaded file whose extension is
disallowed never gets a file stored and never gets a review row created
or updated; when it also passes the earlier checks (required fields, film
resolution, rating), it fails precisely with the file-type error. -/
theorem C4_bad_file_rejected
    (secName : String → String) (now : Nat) (today : String)
    (s : SessionData) (form : ReviewForm) (st st' : AppState)
    (fid : Nat) (rv : Int) (fn : String)
    (ht : pyStrip form.title ≠ "") (hr : form.rating ≠ "")
    (hc : pyStrip form.content ≠ "")
    (hfilm : resolve_film form.film_id (pyStrip form.new_film) st = .ok (fid, st'))
    (hrv : validate_rating form.rating = some rv)
    (hfn : form.photo = some fn) (hfne : fn ≠ "")
    (hbad : allowed_file fn = false) :
    add_review secName now today (some s) Method.post form st =
      (Resp.redirect "/add-review"
         "Invalid file type. Please upload an image (png, jpg, jpeg, gif)." "error", st') ∧
    st'.uploads = st.uploads ∧ st'.reviews = st.reviews ∧
    (∀ (sess2 : Option SessionData) (m2 : Method) (st2 : AppState),
        (add_review secName now today sess2 m2 form st2).2.uploads = st2.uploads ∧
        (add_review secName now today sess2 m2 form st2).2.reviews = st2.reviews) ∧
    (∀ (sess2 : Option SessionData) (rid : Nat) (m2 : Method) (st2 : AppState),
        (edit_review sess2 rid m2 st2).2 = st2) := by
  have ht' : (pyStrip form.title == "") = false := by
    cases hEq : (pyStrip form.title == "")
    · rfl
    · exact absurd (beq_iff_eq.mp hEq) ht
  have hr' : (form.rating == "") = false := by
    cases hEq : (form.rating == "")
    · rfl
    · exact absurd (beq_iff_eq.mp hEq) hr
  have hc' : (pyStrip form.content == "") = false := by
    cases hEq : (pyStrip form.content == "")
    · rfl
    · exact absurd (beq_iff_eq.mp hEq) hc
  have hfne' : (fn != "") = true := bne_iff_ne.mpr hfne
  have hfr := resolve_film_frame _ _ _ _ _ hfilm
  refine ⟨?_, hfr.2.2.1, hfr.2.1,
          fun sess2 m2 st2 =>
            add_review_no_store_on_bad_file secName now today sess2 m2 form st2 fn hfn hfne hbad,
          fun sess2 rid m2 st2 => edit_review_state_id sess2 rid m2 st2⟩
  simp [add_review, ht', hr', hc', hfilm, hrv, handle_upload, hfn, hfne', hbad]

/-- Witness for C4 (amended): the same disallowed upload with an
otherwise valid form fails with the file-type error, and even an
anonymous request stores nothing. -/
theorem C4_bad_file_rejected_witness :
    add_review id 0 "2026-02-03" (some ⟨1, "alice"⟩) Method.post
        ⟨"Nice", "4", "Body", "1", "", some "virus.exe"⟩ dbSample =
      (Resp.redirect "/add-review"
         "Invalid file type. Please upload an image (png, jpg, jpeg, gif)." "error",
       dbSample) ∧
    (add_review id 0 "2026-02-03" none Method.post
        ⟨"Nice", "4", "Body", "1", "", some "virus.exe"⟩ dbSample).2.uploads =
      dbSample.uploads := by
  have h := C4_bad_file_rejected id 0 "2026-02-03" ⟨1, "alice"⟩
    ⟨"Nice", "4", "Body", "1", "", some "virus.exe"⟩ dbSample dbSample 1 4 "virus.exe"
    (by decide) (by decide) (by decide) (by decide) (by decide) (by decide)
    (by decide) (by decide)
  exact ⟨h.1, (h.2.2.2.1 none Method.post dbSample).1⟩

/-- C9: registration rejects a password shorter than 6 characters, or
with no uppercase letter, or with no digit, each with its specific error
and no user row inserted; a submission passing these checks and the
duplicate-username check inserts exactly one user row whose stored
password is the hash function's output, not the plain-text password. -/
theorem C9_register_validation
    (hash : String → String) (u p : String) (st : AppState) :
    (p.length < 6 →
        register hash Method.post u p st =
          (Resp.redirect "/register" "Password must be at least 6 characters long." "error", st)) ∧
    (¬ p.length < 6 → p.toList.any Char.isUpper = false →
        register hash Method.post u p st =
          (Resp.redirect "/register" "Password must include at least one uppercase letter." "error", st)) ∧
    (¬ p.length < 6 → p.toList.any Char.isUpper = true →
        p.toList.any Char.isDigit = false →
        register hash Method.post u p st =
          (Resp.redirect "/register" "Password must include at least one number." "error", st)) ∧
    (¬ p.length < 6 → p.toList.any Char.isUpper = true →
        p.toList.any Char.isDigit = true →
        st.users.find? (fun x => x.username == pyStrip u) = none →
        register hash Method.post u p st =
          (Resp.redirect "/login" "Account created successfully! Please log in." "success",
           { st with users := st.users ++ [⟨st.nextUserId, pyStrip u, hash p⟩],
                     nextUserId := st.nextUserId + 1 }) ∧
        (hash p ≠ p →
          (⟨st.nextUserId, pyStrip u, hash p⟩ : UserRow).password ≠ p)) := by
  refine ⟨?_, ?_, ?_, ?_⟩
  · intro h1
    unfold register
    rw [if_pos h1]
  · intro h1 h2
    have hUp : (!(p.toList.any Char.isUpper)) = true := by rw [h2]; rfl
    unfold register
    rw [if_neg h1, if_pos hUp]
  · intro h1 h2 h3
    have hUp : ¬ ((!(p.toList.any Char.isUpper)) = true) := by rw [h2]; simp
    have hDig : (!(p.toList.any Char.isDigit)) = true := by rw [h3]; rfl
    unfold register
    rw [if_neg h1, if_neg hUp, if_pos hDig]
  · intro h1 h2 h3 hfind
    have hUp : ¬ ((!(p.toList.any Char.isUpper)) = true) := by rw [h2]; simp
    have hDig : ¬ ((!(p.toList.any Char.isDigit)) = true) := by rw [h3]; simp
    refine ⟨?_, fun hne => hne⟩
    unfold register
    rw [if_neg h1, if_neg hUp, if_neg hDig, hfind]

/-- Witness for C9: the four registration outcomes at concrete inputs —
`"Pw1"` too short, `"passw0rd"` without an uppercase letter, `"Password"`
without a digit, and `"Passw0rd"` accepted and stored hashed for the new
user `"dave"`. -/
theorem C9_register_validation_witness :
    register hashFix Method.post "dave" "Pw1" dbSample =
      (Resp.redirect "/register" "Password must be at least 6 characters long." "error", dbSample) ∧
    register hashFix Method.post "dave" "passw0rd" dbSample =
      (Resp.redirect "/register" "Password must include at least one uppercase letter." "error", dbSample) ∧
    register hashFix Method.post "dave" "Password" dbSample =
      (Resp.redirect "/register" "Password must include at least one number." "error", dbSample) ∧
    register hashFix Method.post "dave" "Passw0rd" dbSample =
      (Resp.redirect "/login" "Account created successfully! Please log in." "success",
       { dbSample with users := dbSample.users ++ [⟨3, "dave", "pbkdf2:sha256:Passw0rd"⟩],
                       nextUserId := 4 }) := by
  refine ⟨(C9_register_validation hashFix "dave" "Pw1" dbSample).1 (by decide),
          (C9_register_validation hashFix "dave" "passw0rd" dbSample).2.1
            (by decide) (by decide),
          (C9_register_validation hashFix "dave" "Password" dbSample).2.2.1
            (by decide) (by decide) (by decide),
          ?_⟩
  have h := ((C9_register_validation hashFix "dave" "Passw0rd" dbSample).2.2.2
    (by decide) (by decide) (by decide) (by decide)).1
  exact h.trans (by decide)
